import Mathlib

/-!
Verification of the obsidian-typst plugin (src/main.ts) against its
natural-language specification.

The plugin intercepts MathJax's `tex2chtml`, classifies inputs with a
regular-expression heuristic, and for "non-LaTeX" inputs returns a
placeholder DOM node while an asynchronous task compiles the expression
with the external Typst engine and replaces the placeholder.

We embed the plugin's pure logic shallowly:
  * JavaScript strings are Lean `String`s; the whitespace class of the
    JS regex `\s` / `\S` and of `String.prototype.trim` is `isJsWhitespace`;
  * `hasLatexCommand` (the regex test `/\\\S/`) is a direct scan for a
    backslash immediately followed by a non-whitespace character;
  * DOM nodes produced by the plugin form the inductive `Node`;
  * the patched `tex2chtml` is `tex2chtmlPatched`, returning the value the
    patched function returns together with the list of asynchronous tasks
    the call launches and the updated placeholder counter;
  * the body of the asynchronous task is `runTask` / `tryBranch` /
    `catchBranch`, with the outcomes of the external calls (`$typst.svg`,
    the DOM parser, the saved `tex2chtml`) passed in as `Except` values;
  * the Typst document template is `mainContent`, byte-faithful to the
    template literal in the source (newline + five tabs per line,
    trailing space after the closing `$`).
-/

/-- The JavaScript whitespace class: the characters matched by `\s` in a
JS regular expression (and stripped by `String.prototype.trim`).
`\S` matches exactly the characters for which this is `false`. -/
def isJsWhitespace (c : Char) : Bool :=
  c == ' ' || c == '\t' || c == '\n' || c == '\r' ||
  c == '\x0b' || c == '\x0c' ||
  c.toNat == 0xa0 || c.toNat == 0x1680 ||
  (0x2000 ≤ c.toNat && c.toNat ≤ 0x200a) ||
  c.toNat == 0x2028 || c.toNat == 0x2029 || c.toNat == 0x202f ||
  c.toNat == 0x205f || c.toNat == 0x3000 || c.toNat == 0xfeff

/-- Scan of a character list for an occurrence of `'\\'` immediately
followed by a non-whitespace character: the matching semantics of the
JS regex `/\\\S/` on the corresponding string. -/
def hasLatexCommandAux : List Char → Bool
  | a :: b :: rest => (a == '\\' && !isJsWhitespace b) || hasLatexCommandAux (b :: rest)
  | _ => false

/-- `function hasLatexCommand(expr) { const regex = /\\\S/; return regex.test(expr); }`
(src/main.ts, lines 250-253). -/
def hasLatexCommand (expr : String) : Bool :=
  hasLatexCommandAux expr.data

/-- `String.prototype.trim`: strips JS whitespace from both ends. -/
def jsTrim (s : String) : String :=
  String.mk (((s.data.dropWhile isJsWhitespace).reverse.dropWhile isJsWhitespace).reverse)

/-- The existential reading of the spec sentence for the classifier: some
position holds a backslash with a non-whitespace character right after it. -/
def latexLikeSpec (s : String) : Prop :=
  ∃ i, s.data.get? i = some '\\' ∧
    ∃ c, s.data.get? (i + 1) = some c ∧ isJsWhitespace c = false

theorem hasLatexCommandAux_iff (cs : List Char) :
    hasLatexCommandAux cs = true ↔
      ∃ i, cs.get? i = some '\\' ∧
        ∃ c, cs.get? (i + 1) = some c ∧ isJsWhitespace c = false := by
  induction cs with
  | nil =>
    simp [hasLatexCommandAux]
  | cons a tail ih =>
    cases tail with
    | nil =>
      simp only [hasLatexCommandAux]
      constructor
      · intro h; cases h
      · rintro ⟨i, h1, c, h2, h3⟩
        cases i with
        | zero => simp at h2
        | succ j => simp at h1
    | cons b rest =>
      simp only [hasLatexCommandAux, Bool.or_eq_true, Bool.and_eq_true,
        beq_iff_eq, Bool.not_eq_true'] at *
      constructor
      · rintro (⟨hab, hb⟩ | h)
        · exact ⟨0, by simp [hab], b, by simp, hb⟩
        · obtain ⟨i, h1, c, h2, h3⟩ := ih.mp h
          exact ⟨i + 1, by simpa using h1, c, by simpa using h2, h3⟩
      · rintro ⟨i, h1, c, h2, h3⟩
        cases i with
        | zero =>
          left
          simp only [List.get?] at h1 h2
          exact ⟨by injection h1, by injection h2 with h2'; rw [h2']; exact h3⟩
        | succ j =>
          right
          exact ih.mpr ⟨j, by simpa using h1, c, by simpa using h2, h3⟩

/-!  ## DOM nodes and the patched rendering entry point  -/

/-- The DOM nodes the plugin itself creates or returns.
`latexNode e display` stands for the (opaque) output of the saved default
renderer `this._tex2chtml(e, r)`; `placeholder id` for the synchronous
`span.typst-pending` placeholder; `container` for the `div` of class
`typst-display` / `typst-inline` wrapping the parsed SVG element;
`errorNode text` for the `p.typst-render-error` whose `textContent` is the
trimmed expression; `svgElement` for a node the DOM parser extracted from
the SVG string. -/
inductive Node where
  | latexNode (e : String) (display : Bool)
  | placeholder (id : Nat)
  | container (display : Bool) (child : Node)
  | errorNode (text : String)
  | svgElement (svg : String)
deriving DecidableEq, Repr

/-- Model of the saved default renderer `this._tex2chtml`: an opaque
synchronous function from the input and display flag to a DOM node. -/
def origRender (e : String) (display : Bool) : Node :=
  Node.latexNode e display

/-- `!!(r && r.display)`: `r` may be null/undefined (`none`); otherwise
the truthiness of its `display` field. -/
def isDisplayOf : Option Bool → Bool
  | none => false
  | some b => b

/-- The asynchronous rendering task launched for a non-LaTeX input:
the raw input string, the display flag, and the placeholder id it will
look for. -/
structure AsyncTask where
  expr : String
  display : Bool
  placeholderId : Nat
deriving DecidableEq, Repr

/-- What one call to the patched `tex2chtml` produces: the node returned
synchronously to MathJax, the asynchronous tasks launched by the call, and
the value of the placeholder counter `typstPendingId` after the call. -/
structure PatchResult where
  returned : Node
  spawned : List AsyncTask
  counter : Nat
deriving DecidableEq, Repr

/-- The patched `globalThis.MathJax.tex2chtml` (src/main.ts, lines 41-135):
if `hasLatexCommand e` holds the call is answered synchronously by the saved
original renderer; otherwise it returns a fresh placeholder and launches one
asynchronous Typst rendering task. `orig` is the saved `this._tex2chtml`,
`counter` the current `typstPendingId`. -/
def tex2chtmlPatched (orig : String → Bool → Node) (counter : Nat)
    (e : String) (r : Option Bool) : PatchResult :=
  if hasLatexCommand e then
    { returned := orig e (isDisplayOf r), spawned := [], counter := counter }
  else
    { returned := Node.placeholder counter,
      spawned := [{ expr := e, display := isDisplayOf r, placeholderId := counter }],
      counter := counter + 1 }

/-!  ## The Typst document template  -/

/-- Fixed text of the template literal up to the `${margin}` hole:
a newline, five tabs, the `#set text` line, a newline, five tabs and the
start of the `#set page` line. -/
def tmplHead : String :=
  "\n\t\t\t\t\t#set text(size: 18pt, fill: rgb(\"#FFFFFF\"));\n\t\t\t\t\t#set page(margin: "

/-- Fixed text between the `${margin}` hole and the `${this.settings.preamble}` hole. -/
def tmplAfterMargin : String :=
  ", height: auto, width: auto);\n\t\t\t\t\t"

/-- Fixed text between the preamble hole and the first `${padding}` hole:
a newline, five tabs and the opening `$` delimiter. -/
def tmplAfterPreamble : String :=
  "\n\t\t\t\t\t$"

/-- Fixed text after the second `${padding}` hole: the closing `$`
delimiter, a trailing space, a newline and five tabs. -/
def tmplTail : String :=
  "$ \n\t\t\t\t\t"

/-- The `mainContent` template literal (src/main.ts, lines 66-70), with
`padding` and `margin` computed from `isDisplay` as in lines 61-62. -/
def mainContent (preamble mathExpr : String) (isDisplay : Bool) : String :=
  let padding := if isDisplay then " " else ""
  let margin := if isDisplay then "10pt" else "0pt"
  tmplHead ++ margin ++ tmplAfterMargin ++ preamble ++ tmplAfterPreamble ++
    padding ++ mathExpr ++ padding ++ tmplTail

/-- The document the task hands to `$typst.svg` for raw input `e`:
`mainContent` applied to the trimmed expression `String(e).trim()`. -/
def documentFor (preamble e : String) (r : Option Bool) : String :=
  mainContent preamble (jsTrim e) (isDisplayOf r)

/-!  ## The asynchronous task body  -/

/-- The try branch of the task up to the DOM replacement: `$typst.svg`
either throws (`Except.error`) or yields an SVG string; the DOM parser's
`doc.body.firstElementChild` on that string either yields a node or is
null, in which case the code throws `Error("No se encuentra el svg")`.
Both throws land in the same catch. -/
def tryBranch (svgRes : Except Unit String) (parse : String → Option Node) :
    Except Unit Node :=
  match svgRes with
  | Except.error _ => Except.error ()
  | Except.ok svg =>
    match parse svg with
    | none => Except.error ()
    | some n => Except.ok n

/-- The catch branch (src/main.ts, lines 103-131), for a placeholder that
is still attached: if `fallbackToLatexOnError` is set and the saved
renderer succeeds, its output replaces the placeholder; otherwise — flag
unset, or the fallback call itself throws (the empty inner `catch`) — the
placeholder is replaced by a `p.typst-render-error` node whose text is the
trimmed expression. -/
def catchBranch (fallbackToLatexOnError : Bool) (mathExpr : String)
    (latexRes : Except Unit Node) : Node :=
  match fallbackToLatexOnError, latexRes with
  | true, Except.ok n => n
  | true, Except.error _ => Node.errorNode mathExpr
  | false, _ => Node.errorNode mathExpr

/-- The node that ends up in the placeholder's DOM slot once the task
finishes: on success, the style container wrapping the parsed SVG node;
on any failure, the result of the catch branch. -/
def runTask (fallbackToLatexOnError : Bool) (mathExpr : String)
    (display : Bool) (svgRes : Except Unit String)
    (parse : String → Option Node) (latexRes : Except Unit Node) : Node :=
  match tryBranch svgRes parse with
  | Except.ok n => Node.container display n
  | Except.error _ => catchBranch fallbackToLatexOnError mathExpr latexRes

/-- The DOM replacements the task performs on the placeholder's slot,
one list entry per `replaceChild` / `removeChild`-plus-`createEl`
performed along the executed path (for an attached placeholder). -/
def taskWrites (fallbackToLatexOnError : Bool) (mathExpr : String)
    (display : Bool) (svgRes : Except Unit String)
    (parse : String → Option Node) (latexRes : Except Unit Node) : List Node :=
  match tryBranch svgRes parse with
  | Except.ok n => [Node.container display n]
  | Except.error _ =>
    match fallbackToLatexOnError, latexRes with
    | true, Except.ok n => [n]
    | true, Except.error _ => [Node.errorNode mathExpr]
    | false, _ => [Node.errorNode mathExpr]

/-- `parent.replaceChild` semantics on one DOM slot: each write replaces
whatever the slot currently holds. -/
def applyWrites (init : Node) : List Node → Node
  | [] => init
  | w :: ws => applyWrites w ws

/-- Is this node the pending placeholder? -/
def isPlaceholder : Node → Bool
  | Node.placeholder _ => true
  | _ => false

/-!  ## Settings  -/

/-- `interface TypstSettings` (src/main.ts, lines 7-10): exactly two
fields. -/
structure TypstSettings where
  fallbackToLatexOnError : Bool
  preamble : String
deriving DecidableEq, Repr

/-- The toggle's `onChange` in `TypstSettingTab.display`:
`this.plugin.settings.fallbackToLatexOnError = value`. -/
def setFallbackToLatexOnError (s : TypstSettings) (value : Bool) : TypstSettings :=
  { s with fallbackToLatexOnError := value }

/-- The text area's `onChange` in `TypstSettingTab.display`:
`this.plugin.settings.preamble = value`. -/
def setPreamble (s : TypstSettings) (value : String) : TypstSettings :=
  { s with preamble := value }

/-- The runtime (JavaScript) view of the settings object: each of the two
properties may be absent/undefined, as `DEFAULT_SETTINGS` is declared
`Partial<TypstSettings>`. -/
structure JSSettings where
  fallbackToLatexOnError : Option Bool
  preamble : Option String
deriving DecidableEq, Repr

/-- `const DEFAULT_SETTINGS: Partial<TypstSettings> =
\x7b fallbackToLatexOnError: false \x7d` (src/main.ts, lines 12-14):
only `fallbackToLatexOnError` is present; `preamble` is omitted. -/
def DEFAULT_SETTINGS : JSSettings :=
  { fallbackToLatexOnError := some false, preamble := none }

/-- One property under `Object.assign`: a property present in the source
overrides the target, an absent one leaves the target's value. -/
def assignProp {α : Type} (target src : Option α) : Option α :=
  match src with
  | some v => some v
  | none => target

/-- `Object.assign(target, src)` restricted to the two settings
properties. -/
def objectAssign (target src : JSSettings) : JSSettings :=
  { fallbackToLatexOnError := assignProp target.fallbackToLatexOnError src.fallbackToLatexOnError,
    preamble := assignProp target.preamble src.preamble }

/-- The empty object literal passed as `Object.assign`'s target. -/
def emptyObj : JSSettings :=
  { fallbackToLatexOnError := none, preamble := none }

/-- `loadSettings` (src/main.ts, lines 141-143):
`Object.assign(\x7b\x7d, DEFAULT_SETTINGS, await this.loadData())`, where
`loadData()` yields `none` when no data file is stored (`Object.assign`
skips a null/undefined source). -/
def loadSettings (stored : Option JSSettings) : JSSettings :=
  let base := objectAssign emptyObj DEFAULT_SETTINGS
  match stored with
  | none => base
  | some d => objectAssign base d

/-- JavaScript template-literal interpolation of a possibly-undefined
string value: `undefined` interpolates as the text `"undefined"`. -/
def jsInterpString : Option String → String
  | none => "undefined"
  | some s => s

/-- The document the task builds when the runtime settings object is `s`:
`${this.settings.preamble}` interpolates `s.preamble` JavaScript-style. -/
def documentForJS (s : JSSettings) (e : String) (r : Option Bool) : String :=
  mainContent (jsInterpString s.preamble) (jsTrim e) (isDisplayOf r)

/-- The value `TypstSettingTab.display` hands to the preamble text area:
`text.setValue(this.plugin.settings.preamble)`. -/
def displayTextAreaValue (s : JSSettings) : Option String :=
  s.preamble

/-!  ## Global monkey-patching state (onload / onunload)  -/

/-- The slice of `globalThis.MathJax` the plugin touches: the `tex2chtml`
entry point. -/
structure MathJaxGlobal where
  tex2chtml : String → Bool → Node

/-- The plugin field `_tex2chtml` holding the saved original renderer
after `onload` ran. -/
structure PluginSaved where
  saved : String → Bool → Node

/-- The patching part of `onload` (src/main.ts, lines 33-41): save
`globalThis.MathJax.tex2chtml` into `this._tex2chtml`, then install the
patched function (which closes over the saved one; the placeholder
counter and task launching are modelled separately by
`tex2chtmlPatched`). Returns the new global together with the plugin's
saved field. -/
def onloadPatch (g : MathJaxGlobal) : MathJaxGlobal × PluginSaved :=
  ({ tex2chtml := fun e d =>
       if hasLatexCommand e then g.tex2chtml e d else Node.placeholder 0 },
   { saved := g.tex2chtml })

/-- `onunload` (src/main.ts, lines 149-152):
`globalThis.MathJax.tex2chtml = this._tex2chtml`. -/
def onunloadPatch (p : PluginSaved) : MathJaxGlobal :=
  { tex2chtml := p.saved }

/-- The fallback call `this._tex2chtml(e, r)` inside the catch branch:
either it throws, or it returns the saved default renderer's output. -/
def latexCallResult (e : String) (display : Bool) (threw : Bool) :
    Except Unit Node :=
  if threw then Except.error () else Except.ok (origRender e display)

/-!  ## Claim theorems  -/

/-- C1: every input to the patched entry point either is classified
LaTeX-like and rendered synchronously by the saved original `tex2chtml`
(no task launched), or is not and gets a placeholder return plus exactly
the one launched alternate-engine task; no input satisfies both
classifications. -/
theorem c1_patched_entry_paths (orig : String → Bool → Node) (counter : Nat)
    (e : String) (r : Option Bool) :
    (hasLatexCommand e = true →
      tex2chtmlPatched orig counter e r =
        { returned := orig e (isDisplayOf r), spawned := [], counter := counter }) ∧
    (hasLatexCommand e = false →
      tex2chtmlPatched orig counter e r =
        { returned := Node.placeholder counter,
          spawned := [{ expr := e, display := isDisplayOf r, placeholderId := counter }],
          counter := counter + 1 }) ∧
    ¬(hasLatexCommand e = true ∧ hasLatexCommand e = false) := by
  refine ⟨fun h => by simp [tex2chtmlPatched, h],
          fun h => by simp [tex2chtmlPatched, h],
          fun ⟨h1, h2⟩ => by rw [h1] at h2; cases h2⟩

/-- Witness for C1: `"\a"` takes the LaTeX path, `"x^2"` the placeholder
path. -/
theorem c1_patched_entry_paths_witness :
    tex2chtmlPatched origRender 0 "\\a" none =
      { returned := origRender "\\a" false, spawned := [], counter := 0 } ∧
    tex2chtmlPatched origRender 0 "x^2" none =
      { returned := Node.placeholder 0,
        spawned := [{ expr := "x^2", display := false, placeholderId := 0 }],
        counter := 1 } :=
  ⟨(c1_patched_entry_paths origRender 0 "\\a" none).1 (by decide),
   (c1_patched_entry_paths origRender 0 "x^2" none).2.1 (by decide)⟩

/-- C2: a string is classified LaTeX-like by `hasLatexCommand` (the test
of the regex `\\\S`) exactly when some position holds a backslash
immediately followed by a non-whitespace character. -/
theorem c2_classifier_iff (s : String) :
    hasLatexCommand s = true ↔ latexLikeSpec s := by
  unfold hasLatexCommand latexLikeSpec
  exact hasLatexCommandAux_iff s.data

/-- C3: in the catch branch, if `fallbackToLatexOnError` is `true` and the
saved renderer's call succeeds the placeholder is replaced by the default
renderer's output, and otherwise — flag unset, or the fallback call itself
throws — it is replaced by the error node carrying the trimmed expression
text. -/
theorem c3_catch_fallback (flag : Bool) (e : String)
    (latexRes : Except Unit Node) :
    (∀ n, flag = true → latexRes = Except.ok n →
      catchBranch flag (jsTrim e) latexRes = n) ∧
    ((flag = false ∨ (∃ u, latexRes = Except.error u)) →
      catchBranch flag (jsTrim e) latexRes = Node.errorNode (jsTrim e)) := by
  constructor
  · rintro n rfl rfl; rfl
  · rintro (rfl | ⟨u, rfl⟩)
    · cases latexRes <;> rfl
    · cases flag <;> rfl

/-- Witness for C3: with the flag set and a successful fallback the
default renderer's node lands in the slot; with the flag unset the error
node with the trimmed text does. -/
theorem c3_catch_fallback_witness :
    catchBranch true (jsTrim " x ") (Except.ok (Node.latexNode " x " true)) =
      Node.latexNode " x " true ∧
    catchBranch false (jsTrim " x ") (Except.error ()) =
      Node.errorNode (jsTrim " x ") :=
  ⟨(c3_catch_fallback true " x " (Except.ok (Node.latexNode " x " true))).1
      (Node.latexNode " x " true) rfl rfl,
   (c3_catch_fallback false " x " (Except.error ())).2 (Or.inl rfl)⟩

/-- C4: the task for a non-LaTeX expression performs exactly one
replacement on the placeholder's slot; after it the slot holds the task's
result, which is never a placeholder again and is exactly one of: the
rendered SVG container, the error node with the trimmed text, or the
default renderer's fallback node. -/
theorem c4_placeholder_lifecycle (flag : Bool) (e : String) (r : Option Bool)
    (svgRes : Except Unit String) (parse : String → Option Node)
    (threw : Bool) (id : Nat) :
    (taskWrites flag (jsTrim e) (isDisplayOf r) svgRes parse
        (latexCallResult e (isDisplayOf r) threw)).length = 1 ∧
    applyWrites (Node.placeholder id)
        (taskWrites flag (jsTrim e) (isDisplayOf r) svgRes parse
          (latexCallResult e (isDisplayOf r) threw)) =
      runTask flag (jsTrim e) (isDisplayOf r) svgRes parse
        (latexCallResult e (isDisplayOf r) threw) ∧
    isPlaceholder (runTask flag (jsTrim e) (isDisplayOf r) svgRes parse
        (latexCallResult e (isDisplayOf r) threw)) = false ∧
    ((∃ n, runTask flag (jsTrim e) (isDisplayOf r) svgRes parse
        (latexCallResult e (isDisplayOf r) threw) =
        Node.container (isDisplayOf r) n) ∨
     runTask flag (jsTrim e) (isDisplayOf r) svgRes parse
        (latexCallResult e (isDisplayOf r) threw) =
        Node.errorNode (jsTrim e) ∨
     runTask flag (jsTrim e) (isDisplayOf r) svgRes parse
        (latexCallResult e (isDisplayOf r) threw) =
        Node.latexNode e (isDisplayOf r)) := by
  unfold runTask taskWrites latexCallResult catchBranch origRender
  cases h : tryBranch svgRes parse with
  | ok n => exact ⟨rfl, rfl, rfl, Or.inl ⟨n, rfl⟩⟩
  | error u =>
    cases flag <;> cases threw <;>
      simp [applyWrites, isPlaceholder]

/-- C5: the settings record has exactly the two fields
`fallbackToLatexOnError` and `preamble` (two records agreeing on both are
equal), and each settings-tab operation writes its own field and leaves
the other untouched. -/
theorem c5_settings_model :
    (∀ s t : TypstSettings,
      s.fallbackToLatexOnError = t.fallbackToLatexOnError →
      s.preamble = t.preamble → s = t) ∧
    (∀ s v, (setFallbackToLatexOnError s v).fallbackToLatexOnError = v ∧
            (setFallbackToLatexOnError s v).preamble = s.preamble) ∧
    (∀ s v, (setPreamble s v).preamble = v ∧
            (setPreamble s v).fallbackToLatexOnError = s.fallbackToLatexOnError) := by
  refine ⟨?_, ?_, ?_⟩
  · intro s t h1 h2; cases s; cases t; simp_all
  · intro s v; exact ⟨rfl, rfl⟩
  · intro s v; exact ⟨rfl, rfl⟩

/-- Witness for C5 at a concrete settings record. -/
theorem c5_settings_model_witness :
    (⟨true, "p"⟩ : TypstSettings) = ⟨true, "p"⟩ :=
  c5_settings_model.1 ⟨true, "p"⟩ ⟨true, "p"⟩ rfl rfl

/-- C6: the document handed to the compiler is built deterministically
from the trimmed expression as fixed text, the margin (10pt in display
mode, 0pt inline), fixed page settings, the user preamble, then the
expression enclosed in `$` delimiters with one space of padding on each
side in display mode and none inline. -/
theorem c6_document_shape (p e : String) (r : Option Bool) :
    documentFor p e r =
      tmplHead ++ (if isDisplayOf r then "10pt" else "0pt") ++ tmplAfterMargin ++
        p ++ tmplAfterPreamble ++ (if isDisplayOf r then " " else "") ++
        jsTrim e ++ (if isDisplayOf r then " " else "") ++ tmplTail := by
  cases r with
  | none => rfl
  | some b => cases b <;> rfl

/-- C7: a call with a non-LaTeX expression launches exactly one
asynchronous task, and replacement on a DOM slot is last-write-wins: the
slot ends up holding the final write (or its initial node when no write
happened). -/
theorem c7_one_task_last_write_wins :
    (∀ (orig : String → Bool → Node) (counter : Nat) (e : String)
        (r : Option Bool),
      hasLatexCommand e = false →
        (tex2chtmlPatched orig counter e r).spawned.length = 1) ∧
    (∀ (init : Node) (ws : List Node),
      applyWrites init ws = ws.getLastD init) := by
  constructor
  · intro orig counter e r h; simp [tex2chtmlPatched, h]
  · intro init ws
    induction ws generalizing init with
    | nil => rfl
    | cons w ws ih =>
      show applyWrites w ws = (w :: ws).getLastD init
      rw [List.getLastD_cons]
      exact ih w

/-- Witness for C7: one task spawned for `"x^2"`, and a slot written twice
holds the second write. -/
theorem c7_one_task_last_write_wins_witness :
    (tex2chtmlPatched origRender 0 "x^2" none).spawned.length = 1 ∧
    applyWrites (Node.placeholder 0) [Node.errorNode "a", Node.errorNode "b"] =
      [Node.errorNode "a", Node.errorNode "b"].getLastD (Node.placeholder 0) :=
  ⟨c7_one_task_last_write_wins.1 origRender 0 "x^2" none (by decide),
   c7_one_task_last_write_wins.2 (Node.placeholder 0)
     [Node.errorNode "a", Node.errorNode "b"]⟩

/-- C8: `onunload` after `onload` restores `globalThis.MathJax.tex2chtml`
to exactly its value before `onload`. -/
theorem c8_unload_restores_tex2chtml (g : MathJaxGlobal) :
    (onunloadPatch (onloadPatch g).2).tex2chtml = g.tex2chtml :=
  rfl

/-- C9: with no stored data, `loadSettings` leaves `preamble` absent
(`undefined`) while `fallbackToLatexOnError` is `false`; that undefined
value interpolates as the text `"undefined"` into every compiled document
and is the value handed to the settings text area. -/
theorem c9_preamble_undefined :
    (loadSettings none).preamble = none ∧
    (loadSettings none).fallbackToLatexOnError = some false ∧
    (∀ e r, documentForJS (loadSettings none) e r =
      mainContent "undefined" (jsTrim e) (isDisplayOf r)) ∧
    displayTextAreaValue (loadSettings none) = none := by
  exact ⟨rfl, rfl, fun e r => rfl, rfl⟩
